import Mathlib

/-!
Shallow embedding of the Cloudflare DDNS updater (`src/ddns.py`) and of the
generic HTTP wrapper exercised by its test suite, together with theorems
checking the repository's specification against this embedding.

The network is modelled by a `World` record supplying the outcome of each
HTTP endpoint the script touches; a transport failure
(`requests.RequestException`) is the `Except.error` case.  Every operation
returns its value together with the list of network calls it performed, so
that "no network calls are made" and "exactly one mutating call per stale
record" are statements about an explicit trace.
-/

set_option autoImplicit false

namespace Ddns

/-- Python truthiness of an optional string: `None` and `""` are falsy. -/
def pyTruthy : Option String → Bool
  | none => false
  | some s => decide (s ≠ "")

/-- Python `a or b` on optional strings: the first truthy operand, else `b`. -/
def pyOr (a b : Option String) : Option String :=
  if pyTruthy a then a else b

/-- Python `str.strip()`: drop leading and trailing whitespace. -/
def pyStrip (s : String) : String :=
  String.mk (((s.data.dropWhile Char.isWhitespace).reverse.dropWhile
    Char.isWhitespace).reverse)

/-- The transport-error case: `requests.RequestException` and its subclasses. -/
inductive NetErr where
  | requestError
deriving DecidableEq, Repr

/-- A zone object from the provider's `GET /zones` response (`{'id': ...}`). -/
structure Zone where
  id : String
deriving DecidableEq, Repr

/-- Envelope of the `GET /zones` response: `{'success': ..., 'result': [...]}`.
A response lacking the key maps to `success := false` / `result := []`,
matching `resp.get('success')` and `resp.get('result', [])`. -/
structure ZonesResp where
  success : Bool
  result : List Zone
deriving DecidableEq, Repr

/-- A DNS record object.  `content` is optional because the script reads it
with `record.get('content')`; `id` is read with `record['id']` and is assumed
present. -/
structure DnsRecord where
  id : String
  content : Option String
deriving DecidableEq, Repr

/-- Envelope of the `GET /zones/{id}/dns_records` response. -/
structure RecordsResp where
  success : Bool
  result : List DnsRecord
deriving DecidableEq, Repr

/-- Body returned by `cf_patch`: in dry-run mode it is
`{"success": True, "result": json_data}`; in real mode it is whatever the
provider answered. -/
structure PatchResp where
  success : Bool
  result : List (String × String)
deriving DecidableEq, Repr

/-- One network call issued by the script, with the request data the script
put into it.  `patchNet` is the only mutating call (a real `PATCH`);
`updateRecord` marks an invocation of `update_a_record` (issued in both
dry-run and real mode) carrying the request body it builds. -/
inductive Call where
  | getZones (zoneName : String)
  | getRecords (zoneId recordName recordKind : String)
  | getIp
  | updateRecord (zoneId recordId : String) (body : List (String × String))
  | patchNet (zoneId recordId : String) (body : List (String × String))
deriving DecidableEq, Repr

/-- The outside world: what each HTTP endpoint would answer on this run.
`Except.error` models a raised `requests.RequestException`. -/
structure World where
  zonesResp : Except NetErr ZonesResp
  recordsResp : Except NetErr RecordsResp
  ipText : Except NetErr String
  patchResp : String → List (String × String) → Except NetErr PatchResp

/-- Parsed command-line arguments (`--zone`, `--name`); `argparse` yields
`None` for an absent flag. -/
structure Args where
  zone : Option String
  name : Option String
deriving DecidableEq, Repr

/-- The environment variables the script reads. -/
structure Env where
  cloudflareApiToken : Option String
  ddnsZoneName : Option String
  ddnsDnsName : Option String
deriving DecidableEq, Repr

/-- `cf_patch(path, json_data)`: in dry-run mode, no network call is made and
the synthetic value `{"success": True, "result": json_data}` is returned;
otherwise the real `PATCH` is issued (and may raise a transport error). -/
def cf_patch (dryRun : Bool) (w : World) (zoneId recordId : String)
    (jsonData : List (String × String)) : Except NetErr PatchResp × List Call :=
  if dryRun then
    (Except.ok ⟨true, jsonData⟩, [])
  else
    match w.patchResp recordId jsonData with
    | Except.ok r => (Except.ok r, [Call.patchNet zoneId recordId jsonData])
    | Except.error e => (Except.error e, [Call.patchNet zoneId recordId jsonData])

/-- `get_zone_id(zone_name)`: `None` when the response is unsuccessful or the
result list is empty, else the id of the first zone returned. -/
def get_zone_id (w : World) (zoneName : String) :
    Except NetErr (Option String) × List Call :=
  match w.zonesResp with
  | Except.error e => (Except.error e, [Call.getZones zoneName])
  | Except.ok resp =>
    if !resp.success then (Except.ok none, [Call.getZones zoneName])
    else
      match resp.result with
      | [] => (Except.ok none, [Call.getZones zoneName])
      | z :: _ => (Except.ok (some z.id), [Call.getZones zoneName])

/-- `get_dns_records(zone_id, record_name, record_type)`: the result list on
success, `[]` when the response reports failure. -/
def get_dns_records (w : World) (zoneId recordName recordKind : String) :
    Except NetErr (List DnsRecord) × List Call :=
  match w.recordsResp with
  | Except.error e => (Except.error e, [Call.getRecords zoneId recordName recordKind])
  | Except.ok resp =>
    if !resp.success then (Except.ok [], [Call.getRecords zoneId recordName recordKind])
    else (Except.ok resp.result, [Call.getRecords zoneId recordName recordKind])

/-- `update_a_record(zone_id, record_id, new_ip)`: builds the one-field body
`{'content': new_ip}` and hands it to `cf_patch`. -/
def update_a_record (dryRun : Bool) (w : World) (zoneId recordId newIp : String) :
    Except NetErr Unit × List Call :=
  let data : List (String × String) := [("content", newIp)]
  match cf_patch dryRun w zoneId recordId data with
  | (Except.ok _, tr) => (Except.ok (), Call.updateRecord zoneId recordId data :: tr)
  | (Except.error e, tr) => (Except.error e, Call.updateRecord zoneId recordId data :: tr)

/-- `get_public_ip()`: fetch `https://api.ipify.org` and strip the body. -/
def get_public_ip (w : World) : Except NetErr String × List Call :=
  match w.ipText with
  | Except.error e => (Except.error e, [Call.getIp])
  | Except.ok t => (Except.ok (pyStrip t), [Call.getIp])

/-- The `for record in records` loop of `main`, threading the `any_updated`
flag; a transport error inside `update_a_record` aborts the loop. -/
def updateLoop (dryRun : Bool) (w : World) (zoneId newIp : String) :
    List DnsRecord → Bool → Except NetErr Unit × Bool × List Call
  | [], anyUpdated => (Except.ok (), anyUpdated, [])
  | r :: rs, anyUpdated =>
    if r.content = some newIp then
      updateLoop dryRun w zoneId newIp rs anyUpdated
    else
      match update_a_record dryRun w zoneId r.id newIp with
      | (Except.ok _, tr) =>
        let rest := updateLoop dryRun w zoneId newIp rs true
        (rest.1, rest.2.1, tr ++ rest.2.2)
      | (Except.error e, tr) => (Except.error e, anyUpdated, tr)

/-- `main()` after argument parsing: exit code together with the trace of
network-facing calls.  A `requests.RequestException` anywhere inside the
`try` block is caught at the top level and mapped to exit code 3. -/
def main (env : Env) (args : Args) (dryRun : Bool) (w : World) :
    Nat × List Call :=
  let zoneName := pyOr args.zone env.ddnsZoneName
  let dnsName := pyOr args.name env.ddnsDnsName
  if !pyTruthy env.cloudflareApiToken then (2, [])
  else if !pyTruthy zoneName || !pyTruthy dnsName then (6, [])
  else
    match get_zone_id w (zoneName.getD "") with
    | (Except.error _, tr) => (3, tr)
    | (Except.ok zoneId, tr) =>
      if !pyTruthy zoneId then (4, tr)
      else
        let zid := zoneId.getD ""
        match get_dns_records w zid (dnsName.getD "") "A" with
        | (Except.error _, tr2) => (3, tr ++ tr2)
        | (Except.ok records, tr2) =>
          if records.isEmpty then (0, tr ++ tr2)
          else
            match get_public_ip w with
            | (Except.error _, tr3) => (3, tr ++ tr2 ++ tr3)
            | (Except.ok newIp, tr3) =>
              match updateLoop dryRun w zid newIp records false with
              | (Except.error _, _, tr4) => (3, tr ++ tr2 ++ tr3 ++ tr4)
              | (Except.ok _, anyUpdated, tr4) =>
                if !anyUpdated then (7, tr ++ tr2 ++ tr3 ++ tr4)
                else (0, tr ++ tr2 ++ tr3 ++ tr4)

/-- The pair of calls `update_a_record` makes for one stale record: the
invocation itself, plus the real `PATCH` when dry-run is off. -/
def updateCalls (dryRun : Bool) (zid ip : String) (r : DnsRecord) : List Call :=
  Call.updateRecord zid r.id [("content", ip)] ::
    (if dryRun then [] else [Call.patchNet zid r.id [("content", ip)]])

/-- Specification-side trace of the reconciliation loop on a fully successful
run: stale records, in order, each contributing its `updateCalls`; up-to-date
records contribute nothing. -/
def updTrace (dryRun : Bool) (zid ip : String) : List DnsRecord → List Call
  | [] => []
  | r :: rs =>
    (if r.content = some ip then [] else updateCalls dryRun zid ip r) ++
      updTrace dryRun zid ip rs

/-- Specification-side `any_updated` flag: is some record's stored content
different from the fetched IP? -/
def anyDiffers (ip : String) : List DnsRecord → Bool
  | [] => false
  | r :: rs => if r.content = some ip then anyDiffers ip rs else true

/-- Does the list start with the given pattern? -/
def startsWithL : List Char → List Char → Bool
  | _, [] => true
  | [], _ :: _ => false
  | a :: as, b :: bs => a = b && startsWithL as bs

/-- Does the haystack contain the needle as a contiguous sublist? -/
def containsSub : List Char → List Char → Bool
  | [], needle => needle.isEmpty
  | h :: t, needle => startsWithL (h :: t) needle || containsSub t needle

/-- Modelled from the spec: a declared content-type "indicates a JSON media
type" when the string `json` occurs in it (so `application/json` and
`application/vnd.api+json` qualify, `text/html` and `text/plain` do not). -/
def isJsonMediaType (ct : String) : Bool :=
  containsSub ct.data "json".data

/-- An HTTP response as seen by the wrapper, parameterised by the type of
parsed JSON documents: its status code, declared content-type, raw text body,
and the body's JSON parse (`none` when parsing fails). -/
structure HttpResponse (J : Type) where
  status : Nat
  contentType : String
  text : String
  jsonBody : Option J
deriving DecidableEq, Repr

/-- What the wrapper returns: a parsed JSON document or the raw text body. -/
inductive HttpResult (J : Type) where
  | json (v : J)
  | text (s : String)
deriving DecidableEq, Repr

/-- How the wrapper fails: a non-2xx status (an HTTP/transport error from
`raise_for_status`) or a value/format error (wrong content-type or
unparseable body when JSON was expected). -/
inductive HttpFailure where
  | statusError
  | valueError
deriving DecidableEq, Repr

/-- Modelled from the spec: the generic HTTP wrapper
(`generic_http_request`), which the repository's tests call
(`src/tests/test_main_logic.py`, class `TestGenericHttpRequest`) but which is
absent from `src/ddns.py`.  Per §4.1: non-2xx status fails with an HTTP
error; on success with JSON expected, a non-JSON content-type or a body that
fails to parse is a value/format error, else the parsed body is returned; on
success with JSON not expected, the raw text body is returned
unconditionally. -/
def generic_http_request {J : Type} (expectJson : Bool) (resp : HttpResponse J) :
    Except HttpFailure (HttpResult J) :=
  if resp.status < 200 ∨ 300 ≤ resp.status then Except.error HttpFailure.statusError
  else if expectJson then
    if !isJsonMediaType resp.contentType then Except.error HttpFailure.valueError
    else
      match resp.jsonBody with
      | some v => Except.ok (HttpResult.json v)
      | none => Except.error HttpFailure.valueError
  else Except.ok (HttpResult.text resp.text)

/-! ### Concrete example data, following the worked example in the spec -/

/-- Environment of the spec's worked example. -/
def exEnv : Env := ⟨some "fake-token", some "example.com", some "host.example.com"⟩

/-- Environment with the credential unset. -/
def exEnvNoTok : Env := ⟨none, some "example.com", some "host.example.com"⟩

/-- Environment with a credential but no zone or record name. -/
def exEnvNoNames : Env := ⟨some "fake-token", none, none⟩

/-- No command-line flags given. -/
def exArgs : Args := ⟨none, none⟩

/-- A provider that answers every `PATCH` with a success envelope. -/
def okPatch : String → List (String × String) → Except NetErr PatchResp :=
  fun _ body => Except.ok ⟨true, body⟩

/-- A provider whose every `PATCH` raises a transport error. -/
def errPatch : String → List (String × String) → Except NetErr PatchResp :=
  fun _ _ => Except.error NetErr.requestError

/-- The zone of the worked example. -/
def exZone : Zone := ⟨"fake-zone-id"⟩

/-- The record of the worked example, stale relative to IP `192.0.2.100`. -/
def exRecord : DnsRecord := ⟨"rec-123", some "192.0.2.1"⟩

/-- A listed record that lacks the `content` attribute entirely. -/
def exRecordNoContent : DnsRecord := ⟨"rec-456", none⟩

/-- World of the worked example: one stale record, fetched IP `192.0.2.100`. -/
def exWorldUpd : World :=
  ⟨Except.ok ⟨true, [exZone]⟩, Except.ok ⟨true, [exRecord]⟩,
   Except.ok "192.0.2.100", okPatch⟩

/-- World where the record listing succeeds but is empty. -/
def exWorldEmpty : World :=
  ⟨Except.ok ⟨true, [exZone]⟩, Except.ok ⟨true, []⟩,
   Except.ok "192.0.2.100", okPatch⟩

/-- World where the zones query succeeds with an empty result set. -/
def exWorldNoZone : World :=
  ⟨Except.ok ⟨true, []⟩, Except.ok ⟨true, []⟩,
   Except.ok "192.0.2.100", okPatch⟩

/-- World where the zones query raises a transport error. -/
def exWorldZoneErr : World :=
  ⟨Except.error NetErr.requestError, Except.ok ⟨true, [exRecord]⟩,
   Except.ok "192.0.2.100", okPatch⟩

/-- World where the `PATCH` on the stale record raises a transport error. -/
def exWorldPatchErr : World :=
  ⟨Except.ok ⟨true, [exZone]⟩, Except.ok ⟨true, [exRecord]⟩,
   Except.ok "192.0.2.100", errPatch⟩

/-- World listing one stale record and one record without `content`. -/
def exWorldNoContent : World :=
  ⟨Except.ok ⟨true, [exZone]⟩, Except.ok ⟨true, [exRecord, exRecordNoContent]⟩,
   Except.ok "192.0.2.100", okPatch⟩

/-! ### Run lemmas shared by the claim theorems -/

theorem updateLoop_ok (dryRun : Bool) (w : World) (zid ip : String)
    (hpatch : ∀ rid body, ∃ v, w.patchResp rid body = Except.ok v) :
    ∀ (rs : List DnsRecord) (b : Bool),
      updateLoop dryRun w zid ip rs b =
        (Except.ok (), b || anyDiffers ip rs, updTrace dryRun zid ip rs) := by
  intro rs
  induction rs with
  | nil => intro b; simp [updateLoop, anyDiffers, updTrace]
  | cons r rs ih =>
    intro b
    by_cases h : r.content = some ip
    · simp [updateLoop, anyDiffers, updTrace, h, ih]
    · obtain ⟨v, hv⟩ := hpatch r.id [("content", ip)]
      cases dryRun with
      | true =>
        simp [updateLoop, anyDiffers, updTrace, updateCalls, h, ih,
          update_a_record, cf_patch]
      | false =>
        simp [updateLoop, anyDiffers, updTrace, updateCalls, h, ih,
          update_a_record, cf_patch, hv]

theorem updateLoop_firstFail (w : World) (zid ip : String)
    (q : DnsRecord) (post : List DnsRecord)
    (hq : ¬ q.content = some ip)
    (hqe : w.patchResp q.id [("content", ip)] = Except.error NetErr.requestError) :
    ∀ (pre : List DnsRecord) (b : Bool),
      (∀ p ∈ pre, ∃ v, w.patchResp p.id [("content", ip)] = Except.ok v) →
      updateLoop false w zid ip (pre ++ q :: post) b =
        (Except.error NetErr.requestError, b || anyDiffers ip pre,
         updTrace false zid ip pre ++ updateCalls false zid ip q) := by
  intro pre
  induction pre with
  | nil =>
    intro b _
    simp [updateLoop, anyDiffers, updTrace, updateCalls, hq,
      update_a_record, cf_patch, hqe]
  | cons p ps ih =>
    intro b hpre
    by_cases h : p.content = some ip
    · have := ih b (fun x hx => hpre x (List.mem_cons_of_mem p hx))
      simp [updateLoop, anyDiffers, updTrace, h, this]
    · obtain ⟨v, hv⟩ := hpre p (List.mem_cons_self p ps)
      have := ih true (fun x hx => hpre x (List.mem_cons_of_mem p hx))
      simp [updateLoop, anyDiffers, updTrace, updateCalls, h,
        update_a_record, cf_patch, hv, this]

theorem get_zone_id_found (w : World) (zn : String) (z : Zone) (zs : List Zone)
    (hzones : w.zonesResp = Except.ok ⟨true, z :: zs⟩) :
    get_zone_id w zn = (Except.ok (some z.id), [Call.getZones zn]) := by
  simp [get_zone_id, hzones]

theorem get_dns_records_ok (w : World) (zid dn : String) (records : List DnsRecord)
    (hrecs : w.recordsResp = Except.ok ⟨true, records⟩) :
    get_dns_records w zid dn "A" =
      (Except.ok records, [Call.getRecords zid dn "A"]) := by
  simp [get_dns_records, hrecs]

theorem main_ok_run (env : Env) (args : Args) (dryRun : Bool) (w : World)
    (zn dn : String) (z : Zone) (zs : List Zone) (records : List DnsRecord)
    (ipRaw : String)
    (htok : pyTruthy env.cloudflareApiToken = true)
    (hzn : pyOr args.zone env.ddnsZoneName = some zn)
    (hdn : pyOr args.name env.ddnsDnsName = some dn)
    (hzn1 : zn ≠ "") (hdn1 : dn ≠ "")
    (hzones : w.zonesResp = Except.ok ⟨true, z :: zs⟩)
    (hzid : z.id ≠ "")
    (hrecs : w.recordsResp = Except.ok ⟨true, records⟩)
    (hne : records ≠ [])
    (hip : w.ipText = Except.ok ipRaw)
    (hpatch : ∀ rid body, ∃ v, w.patchResp rid body = Except.ok v) :
    main env args dryRun w =
      (if anyDiffers (pyStrip ipRaw) records then 0 else 7,
       [Call.getZones zn, Call.getRecords z.id dn "A", Call.getIp] ++
         updTrace dryRun z.id (pyStrip ipRaw) records) := by
  have h1 : pyTruthy (some zn) = true := by simp [pyTruthy, hzn1]
  have h2 : pyTruthy (some dn) = true := by simp [pyTruthy, hdn1]
  have h3 : pyTruthy (some z.id) = true := by simp [pyTruthy, hzid]
  have hz := get_zone_id_found w zn z zs hzones
  have hr := get_dns_records_ok w z.id dn records hrecs
  have hipp : get_public_ip w = (Except.ok (pyStrip ipRaw), [Call.getIp]) := by
    simp [get_public_ip, hip]
  have hloop := updateLoop_ok dryRun w z.id (pyStrip ipRaw) hpatch records false
  obtain ⟨r0, rest, rfl⟩ : ∃ r0 rest, records = r0 :: rest := by
    cases records with
    | nil => exact absurd rfl hne
    | cons a b => exact ⟨a, b, rfl⟩
  cases hA : anyDiffers (pyStrip ipRaw) (r0 :: rest) <;>
    simp [main, hzn, hdn, htok, h1, h2, h3, hz, hr, hipp, hloop, hA]

theorem main_token_missing (env : Env) (args : Args) (dryRun : Bool) (w : World)
    (htok : pyTruthy env.cloudflareApiToken = false) :
    main env args dryRun w = (2, []) := by
  simp [main, htok]

theorem main_name_missing (env : Env) (args : Args) (dryRun : Bool) (w : World)
    (htok : pyTruthy env.cloudflareApiToken = true)
    (hmiss : pyTruthy (pyOr args.zone env.ddnsZoneName) = false ∨
             pyTruthy (pyOr args.name env.ddnsDnsName) = false) :
    main env args dryRun w = (6, []) := by
  rcases hmiss with h | h <;> simp [main, htok, h]

theorem main_zones_err (env : Env) (args : Args) (dryRun : Bool) (w : World)
    (zn dn : String)
    (htok : pyTruthy env.cloudflareApiToken = true)
    (hzn : pyOr args.zone env.ddnsZoneName = some zn)
    (hdn : pyOr args.name env.ddnsDnsName = some dn)
    (hzn1 : zn ≠ "") (hdn1 : dn ≠ "")
    (hzerr : w.zonesResp = Except.error NetErr.requestError) :
    main env args dryRun w = (3, [Call.getZones zn]) := by
  have h1 : pyTruthy (some zn) = true := by simp [pyTruthy, hzn1]
  have h2 : pyTruthy (some dn) = true := by simp [pyTruthy, hdn1]
  simp [main, hzn, hdn, htok, h1, h2, get_zone_id, hzerr]

theorem main_zone_absent (env : Env) (args : Args) (dryRun : Bool) (w : World)
    (zn dn : String) (resp : ZonesResp)
    (htok : pyTruthy env.cloudflareApiToken = true)
    (hzn : pyOr args.zone env.ddnsZoneName = some zn)
    (hdn : pyOr args.name env.ddnsDnsName = some dn)
    (hzn1 : zn ≠ "") (hdn1 : dn ≠ "")
    (hzones : w.zonesResp = Except.ok resp)
    (habs : resp.success = false ∨ resp.result = []) :
    main env args dryRun w = (4, [Call.getZones zn]) := by
  have h1 : pyTruthy (some zn) = true := by simp [pyTruthy, hzn1]
  have h2 : pyTruthy (some dn) = true := by simp [pyTruthy, hdn1]
  have hz : get_zone_id w zn = (Except.ok none, [Call.getZones zn]) := by
    rcases habs with h | h
    · simp [get_zone_id, hzones, h]
    · cases hs : resp.success <;> simp [get_zone_id, hzones, hs, h]
  have h4 : pyTruthy (none : Option String) = false := rfl
  simp [main, hzn, hdn, htok, h1, h2, hz, h4]

theorem main_records_err (env : Env) (args : Args) (dryRun : Bool) (w : World)
    (zn dn : String) (z : Zone) (zs : List Zone)
    (htok : pyTruthy env.cloudflareApiToken = true)
    (hzn : pyOr args.zone env.ddnsZoneName = some zn)
    (hdn : pyOr args.name env.ddnsDnsName = some dn)
    (hzn1 : zn ≠ "") (hdn1 : dn ≠ "")
    (hzones : w.zonesResp = Except.ok ⟨true, z :: zs⟩)
    (hzid : z.id ≠ "")
    (hrerr : w.recordsResp = Except.error NetErr.requestError) :
    main env args dryRun w = (3, [Call.getZones zn, Call.getRecords z.id dn "A"]) := by
  have h1 : pyTruthy (some zn) = true := by simp [pyTruthy, hzn1]
  have h2 : pyTruthy (some dn) = true := by simp [pyTruthy, hdn1]
  have h3 : pyTruthy (some z.id) = true := by simp [pyTruthy, hzid]
  have hz := get_zone_id_found w zn z zs hzones
  simp [main, hzn, hdn, htok, h1, h2, h3, hz, get_dns_records, hrerr]

theorem main_records_empty (env : Env) (args : Args) (dryRun : Bool) (w : World)
    (zn dn : String) (z : Zone) (zs : List Zone) (resp : RecordsResp)
    (htok : pyTruthy env.cloudflareApiToken = true)
    (hzn : pyOr args.zone env.ddnsZoneName = some zn)
    (hdn : pyOr args.name env.ddnsDnsName = some dn)
    (hzn1 : zn ≠ "") (hdn1 : dn ≠ "")
    (hzones : w.zonesResp = Except.ok ⟨true, z :: zs⟩)
    (hzid : z.id ≠ "")
    (hrecs : w.recordsResp = Except.ok resp)
    (hemp : resp.success = false ∨ resp.result = []) :
    main env args dryRun w = (0, [Call.getZones zn, Call.getRecords z.id dn "A"]) := by
  have h1 : pyTruthy (some zn) = true := by simp [pyTruthy, hzn1]
  have h2 : pyTruthy (some dn) = true := by simp [pyTruthy, hdn1]
  have h3 : pyTruthy (some z.id) = true := by simp [pyTruthy, hzid]
  have hz := get_zone_id_found w zn z zs hzones
  have hr : get_dns_records w z.id dn "A" =
      (Except.ok [], [Call.getRecords z.id dn "A"]) := by
    rcases hemp with h | h
    · simp [get_dns_records, hrecs, h]
    · cases hs : resp.success <;> simp [get_dns_records, hrecs, hs, h]
  simp [main, hzn, hdn, htok, h1, h2, h3, hz, hr]

theorem main_ip_err (env : Env) (args : Args) (dryRun : Bool) (w : World)
    (zn dn : String) (z : Zone) (zs : List Zone) (records : List DnsRecord)
    (htok : pyTruthy env.cloudflareApiToken = true)
    (hzn : pyOr args.zone env.ddnsZoneName = some zn)
    (hdn : pyOr args.name env.ddnsDnsName = some dn)
    (hzn1 : zn ≠ "") (hdn1 : dn ≠ "")
    (hzones : w.zonesResp = Except.ok ⟨true, z :: zs⟩)
    (hzid : z.id ≠ "")
    (hrecs : w.recordsResp = Except.ok ⟨true, records⟩)
    (hne : records ≠ [])
    (hip : w.ipText = Except.error NetErr.requestError) :
    main env args dryRun w =
      (3, [Call.getZones zn, Call.getRecords z.id dn "A", Call.getIp]) := by
  have h1 : pyTruthy (some zn) = true := by simp [pyTruthy, hzn1]
  have h2 : pyTruthy (some dn) = true := by simp [pyTruthy, hdn1]
  have h3 : pyTruthy (some z.id) = true := by simp [pyTruthy, hzid]
  have hz := get_zone_id_found w zn z zs hzones
  have hr := get_dns_records_ok w z.id dn records hrecs
  have hipp : get_public_ip w = (Except.error NetErr.requestError, [Call.getIp]) := by
    simp [get_public_ip, hip]
  obtain ⟨r0, rest, rfl⟩ : ∃ r0 rest, records = r0 :: rest := by
    cases records with
    | nil => exact absurd rfl hne
    | cons a b => exact ⟨a, b, rfl⟩
  simp [main, hzn, hdn, htok, h1, h2, h3, hz, hr, hipp]

theorem main_patch_err (env : Env) (args : Args) (w : World)
    (zn dn : String) (z : Zone) (zs : List Zone)
    (pre : List DnsRecord) (q : DnsRecord) (post : List DnsRecord)
    (ipRaw : String)
    (htok : pyTruthy env.cloudflareApiToken = true)
    (hzn : pyOr args.zone env.ddnsZoneName = some zn)
    (hdn : pyOr args.name env.ddnsDnsName = some dn)
    (hzn1 : zn ≠ "") (hdn1 : dn ≠ "")
    (hzones : w.zonesResp = Except.ok ⟨true, z :: zs⟩)
    (hzid : z.id ≠ "")
    (hrecs : w.recordsResp = Except.ok ⟨true, pre ++ q :: post⟩)
    (hip : w.ipText = Except.ok ipRaw)
    (hpre : ∀ p ∈ pre, ∃ v, w.patchResp p.id [("content", pyStrip ipRaw)] = Except.ok v)
    (hq : ¬ q.content = some (pyStrip ipRaw))
    (hqe : w.patchResp q.id [("content", pyStrip ipRaw)] =
           Except.error NetErr.requestError) :
    main env args false w =
      (3, [Call.getZones zn, Call.getRecords z.id dn "A", Call.getIp] ++
        (updTrace false z.id (pyStrip ipRaw) pre ++
         updateCalls false z.id (pyStrip ipRaw) q)) := by
  have h1 : pyTruthy (some zn) = true := by simp [pyTruthy, hzn1]
  have h2 : pyTruthy (some dn) = true := by simp [pyTruthy, hdn1]
  have h3 : pyTruthy (some z.id) = true := by simp [pyTruthy, hzid]
  have hz := get_zone_id_found w zn z zs hzones
  have hr := get_dns_records_ok w z.id dn (pre ++ q :: post) hrecs
  have hipp : get_public_ip w = (Except.ok (pyStrip ipRaw), [Call.getIp]) := by
    simp [get_public_ip, hip]
  have hloop := updateLoop_firstFail w z.id (pyStrip ipRaw) q post hq hqe pre false hpre
  have hnonnil : ¬ (pre ++ q :: post).isEmpty = true := by
    cases pre <;> simp
  simp [main, hzn, hdn, htok, h1, h2, h3, hz, hr, hipp, hloop, hnonnil]

theorem mem_updTrace_of_no_content (dryRun : Bool) (zid ip : String)
    (r : DnsRecord) (hr : r.content = none) :
    ∀ rs : List DnsRecord, r ∈ rs →
      Call.updateRecord zid r.id [("content", ip)] ∈ updTrace dryRun zid ip rs := by
  intro rs
  induction rs with
  | nil => intro h; cases h
  | cons a as ih =>
    intro h
    rcases List.mem_cons.mp h with rfl | h
    · have : ¬ r.content = some ip := by rw [hr]; intro h; cases h
      simp [updTrace, updateCalls, this]
    · simp only [updTrace]
      exact List.mem_append_right _ (ih h)

/-! ### Claim theorems -/

/-- C1: on a run where the configuration is valid, the zone resolves, the
record listing is non-empty (so the public IP is fetched) and the provider
accepts every mutation, `main` invokes the update operation exactly once for
each record whose stored `content` differs from the fetched IP — with new
address equal to the fetched IP — and invokes no update for records whose
content equals it; the exit code is 0 when at least one record differed and 7
(with zero mutating calls) when every record's content equals the fetched
IP. -/
theorem c1_reconciliation (env : Env) (args : Args) (dryRun : Bool) (w : World)
    (zn dn : String) (z : Zone) (zs : List Zone) (records : List DnsRecord)
    (ipRaw : String)
    (htok : pyTruthy env.cloudflareApiToken = true)
    (hzn : pyOr args.zone env.ddnsZoneName = some zn)
    (hdn : pyOr args.name env.ddnsDnsName = some dn)
    (hzn1 : zn ≠ "") (hdn1 : dn ≠ "")
    (hzones : w.zonesResp = Except.ok ⟨true, z :: zs⟩)
    (hzid : z.id ≠ "")
    (hrecs : w.recordsResp = Except.ok ⟨true, records⟩)
    (hne : records ≠ [])
    (hip : w.ipText = Except.ok ipRaw)
    (hpatch : ∀ rid body, ∃ v, w.patchResp rid body = Except.ok v) :
    main env args dryRun w =
      (if anyDiffers (pyStrip ipRaw) records then 0 else 7,
       [Call.getZones zn, Call.getRecords z.id dn "A", Call.getIp] ++
         updTrace dryRun z.id (pyStrip ipRaw) records) :=
  main_ok_run env args dryRun w zn dn z zs records ipRaw htok hzn hdn hzn1 hdn1
    hzones hzid hrecs hne hip hpatch

/-- Witness for C1 at the spec's worked example: one stale record, so exactly
one update invocation with the fetched IP and exit code 0. -/
theorem c1_reconciliation_witness :
    main exEnv exArgs true exWorldUpd =
      (0, [Call.getZones "example.com",
           Call.getRecords "fake-zone-id" "host.example.com" "A",
           Call.getIp,
           Call.updateRecord "fake-zone-id" "rec-123" [("content", "192.0.2.100")]]) := by
  have h := c1_reconciliation exEnv exArgs true exWorldUpd "example.com"
    "host.example.com" exZone [] [exRecord] "192.0.2.100"
    (by decide) rfl rfl (by decide) (by decide) rfl (by decide) rfl
    (by decide) rfl (fun rid body => ⟨⟨true, body⟩, rfl⟩)
  rw [h]; decide

/-- C2: the claim says an empty record listing makes `main` return exit code
1; the code at `src/ddns.py:176` returns 0 instead (with no public-IP fetch
and no update calls), contradicting the spec's exit-code table and the
repository's own test `test_main_no_dns_records_returns_1`.  This theorem
evaluates the embedded code at that failing input. -/
theorem c2_empty_records_exit_code :
    main exEnv exArgs true exWorldEmpty =
      (0, [Call.getZones "example.com",
           Call.getRecords "fake-zone-id" "host.example.com" "A"]) := by
  decide

/-- C3: a missing credential makes `main` return exit code 2 with no network
calls, regardless of any other configuration; with a credential present but
the zone name or record name absent (in any combination), `main` returns 6
with no network calls. -/
theorem c3_config_guards (env : Env) (args : Args) (dryRun : Bool) (w : World) :
    (pyTruthy env.cloudflareApiToken = false → main env args dryRun w = (2, [])) ∧
    (pyTruthy env.cloudflareApiToken = true →
      (pyTruthy (pyOr args.zone env.ddnsZoneName) = false ∨
       pyTruthy (pyOr args.name env.ddnsDnsName) = false) →
      main env args dryRun w = (6, [])) :=
  ⟨fun h => main_token_missing env args dryRun w h,
   fun h1 h2 => main_name_missing env args dryRun w h1 h2⟩

/-- Witness for C3: credential unset gives exit 2 and an empty trace; token
present with both names absent gives exit 6 and an empty trace. -/
theorem c3_config_guards_witness :
    main exEnvNoTok exArgs true exWorldUpd = (2, []) ∧
    main exEnvNoNames exArgs true exWorldUpd = (6, []) :=
  ⟨(c3_config_guards exEnvNoTok exArgs true exWorldUpd).1 (by decide),
   (c3_config_guards exEnvNoNames exArgs true exWorldUpd).2 (by decide)
     (Or.inl (by decide))⟩

/-- C4: `get_zone_id` returns `none` — not an error — when the response marks
itself unsuccessful or the result set is empty, and on success returns the
id of the first zone in provider-returned order; when the zone is absent,
`main` returns exit code 4 having made only the zones call. -/
theorem c4_zone_resolution (w : World) (zn : String) (resp : ZonesResp) :
    (w.zonesResp = Except.ok resp → resp.success = false →
       get_zone_id w zn = (Except.ok none, [Call.getZones zn])) ∧
    (w.zonesResp = Except.ok resp → resp.result = [] →
       get_zone_id w zn = (Except.ok none, [Call.getZones zn])) ∧
    (∀ z zs, w.zonesResp = Except.ok resp → resp.success = true →
       resp.result = z :: zs →
       get_zone_id w zn = (Except.ok (some z.id), [Call.getZones zn])) ∧
    (∀ env args dryRun dn,
       pyTruthy env.cloudflareApiToken = true →
       pyOr args.zone env.ddnsZoneName = some zn →
       pyOr args.name env.ddnsDnsName = some dn →
       zn ≠ "" → dn ≠ "" →
       w.zonesResp = Except.ok resp →
       (resp.success = false ∨ resp.result = []) →
       main env args dryRun w = (4, [Call.getZones zn])) := by
  refine ⟨fun hz hs => ?_, fun hz hr => ?_, fun z zs hz hs hr => ?_,
    fun env args dryRun dn htok hzn hdn hzn1 hdn1 hz habs =>
      main_zone_absent env args dryRun w zn dn resp htok hzn hdn hzn1 hdn1 hz habs⟩
  · simp [get_zone_id, hz, hs]
  · cases hs : resp.success <;> simp [get_zone_id, hz, hs, hr]
  · obtain ⟨s, l⟩ := resp
    cases hs; cases hr
    exact get_zone_id_found w zn z zs hz

/-- Witness for C4: a successful zones response with an empty result set;
`get_zone_id` yields `none` and `main` exits with 4 after only the zones
call. -/
theorem c4_zone_resolution_witness :
    get_zone_id exWorldNoZone "example.com" =
      (Except.ok none, [Call.getZones "example.com"]) ∧
    main exEnv exArgs true exWorldNoZone = (4, [Call.getZones "example.com"]) :=
  ⟨(c4_zone_resolution exWorldNoZone "example.com" ⟨true, []⟩).2.1 rfl rfl,
   (c4_zone_resolution exWorldNoZone "example.com" ⟨true, []⟩).2.2.2
     exEnv exArgs true "host.example.com" (by decide) rfl rfl (by decide)
     (by decide) rfl (Or.inr rfl)⟩

/-- C5: in dry-run mode `cf_patch` performs no network call and returns the
synthetic success value `{"success": True, "result": json_data}`; and on any
input that would otherwise trigger a mutating call (valid run, at least one
stale record, provider accepting mutations), the exit code is 0 both in
dry-run and in real mode. -/
theorem c5_dry_run (env : Env) (args : Args) (w : World)
    (zid rid : String) (body : List (String × String))
    (zn dn : String) (z : Zone) (zs : List Zone) (records : List DnsRecord)
    (ipRaw : String)
    (htok : pyTruthy env.cloudflareApiToken = true)
    (hzn : pyOr args.zone env.ddnsZoneName = some zn)
    (hdn : pyOr args.name env.ddnsDnsName = some dn)
    (hzn1 : zn ≠ "") (hdn1 : dn ≠ "")
    (hzones : w.zonesResp = Except.ok ⟨true, z :: zs⟩)
    (hzid : z.id ≠ "")
    (hrecs : w.recordsResp = Except.ok ⟨true, records⟩)
    (hne : records ≠ [])
    (hip : w.ipText = Except.ok ipRaw)
    (hpatch : ∀ rid body, ∃ v, w.patchResp rid body = Except.ok v)
    (hdiff : anyDiffers (pyStrip ipRaw) records = true) :
    cf_patch true w zid rid body = (Except.ok ⟨true, body⟩, []) ∧
    (main env args true w).1 = 0 ∧ (main env args false w).1 = 0 := by
  refine ⟨by simp [cf_patch], ?_, ?_⟩ <;>
    rw [main_ok_run env args _ w zn dn z zs records ipRaw htok hzn hdn hzn1 hdn1
      hzones hzid hrecs hne hip hpatch] <;> simp [hdiff]

/-- Witness for C5 at the worked example: the dry-run patch is the synthetic
success with the would-be payload, and both modes exit with 0. -/
theorem c5_dry_run_witness :
    cf_patch true exWorldUpd "fake-zone-id" "rec-123" [("content", "192.0.2.100")] =
      (Except.ok ⟨true, [("content", "192.0.2.100")]⟩, []) ∧
    (main exEnv exArgs true exWorldUpd).1 = 0 ∧
    (main exEnv exArgs false exWorldUpd).1 = 0 :=
  c5_dry_run exEnv exArgs exWorldUpd "fake-zone-id" "rec-123"
    [("content", "192.0.2.100")] "example.com" "host.example.com" exZone []
    [exRecord] "192.0.2.100" (by decide) rfl rfl (by decide) (by decide) rfl
    (by decide) rfl (by decide) rfl (fun rid body => ⟨⟨true, body⟩, rfl⟩)
    (by decide)

/-- C6: a transport error during the public-IP fetch gives exit code 3 with
no update calls at all; a transport error on the real `PATCH` of a stale
record gives exit code 3, and the trace shows mutations only for the records
processed up to and including the failing one — none for the records after
the error point. -/
theorem c6_transport_error_aborts (env : Env) (args : Args) (w : World)
    (zn dn : String) (z : Zone) (zs : List Zone) (records : List DnsRecord)
    (htok : pyTruthy env.cloudflareApiToken = true)
    (hzn : pyOr args.zone env.ddnsZoneName = some zn)
    (hdn : pyOr args.name env.ddnsDnsName = some dn)
    (hzn1 : zn ≠ "") (hdn1 : dn ≠ "")
    (hzones : w.zonesResp = Except.ok ⟨true, z :: zs⟩)
    (hzid : z.id ≠ "")
    (hrecs : w.recordsResp = Except.ok ⟨true, records⟩)
    (hne : records ≠ []) :
    (∀ dryRun, w.ipText = Except.error NetErr.requestError →
       main env args dryRun w =
         (3, [Call.getZones zn, Call.getRecords z.id dn "A", Call.getIp])) ∧
    (∀ ipRaw pre q post,
       records = pre ++ q :: post →
       w.ipText = Except.ok ipRaw →
       (∀ p ∈ pre, ∃ v, w.patchResp p.id [("content", pyStrip ipRaw)] = Except.ok v) →
       ¬ q.content = some (pyStrip ipRaw) →
       w.patchResp q.id [("content", pyStrip ipRaw)] =
         Except.error NetErr.requestError →
       main env args false w =
         (3, [Call.getZones zn, Call.getRecords z.id dn "A", Call.getIp] ++
           (updTrace false z.id (pyStrip ipRaw) pre ++
            updateCalls false z.id (pyStrip ipRaw) q))) := by
  constructor
  · intro dryRun hip
    exact main_ip_err env args dryRun w zn dn z zs records htok hzn hdn hzn1 hdn1
      hzones hzid hrecs hne hip
  · intro ipRaw pre q post hsplit hip hpre hq hqe
    subst hsplit
    exact main_patch_err env args w zn dn z zs pre q post ipRaw htok hzn hdn
      hzn1 hdn1 hzones hzid hrecs hip hpre hq hqe

/-- Witness for C6: the provider rejects the `PATCH` of the single stale
record with a transport error; the run exits with 3 after attempting exactly
that one mutation. -/
theorem c6_transport_error_aborts_witness :
    main exEnv exArgs false exWorldPatchErr =
      (3, [Call.getZones "example.com",
           Call.getRecords "fake-zone-id" "host.example.com" "A",
           Call.getIp,
           Call.updateRecord "fake-zone-id" "rec-123" [("content", "192.0.2.100")],
           Call.patchNet "fake-zone-id" "rec-123" [("content", "192.0.2.100")]]) := by
  have h := (c6_transport_error_aborts exEnv exArgs exWorldPatchErr "example.com"
    "host.example.com" exZone [] [exRecord] (by decide) rfl rfl (by decide)
    (by decide) rfl (by decide) rfl (by decide)).2 "192.0.2.100" [] exRecord []
    rfl rfl (fun p hp => absurd hp (List.not_mem_nil p)) (by decide) rfl
  rw [h]; decide

/-- C7: `update_a_record` builds a request body containing exactly the one
field `content` set to the new IP, and that body is what the invocation (and,
in real mode, the network `PATCH`) carries — so every other record attribute
is left untouched by the request. -/
theorem c7_patch_body_only_content (dryRun : Bool) (w : World)
    (zid rid ip : String) :
    (update_a_record dryRun w zid rid ip).2 =
      Call.updateRecord zid rid [("content", ip)] ::
        (if dryRun then [] else [Call.patchNet zid rid [("content", ip)]]) := by
  cases dryRun with
  | true => simp [update_a_record, cf_patch]
  | false =>
    cases hv : w.patchResp rid [("content", ip)] <;>
      simp [update_a_record, cf_patch, hv]

/-- C8: for a successful (2xx) response, the expect-JSON wrapper fails with a
value/format error when the declared content-type is not a JSON media type or
the body does not parse as JSON, and returns the raw text body
unconditionally when JSON is not expected. -/
theorem c8_wrapper_content_type {J : Type} (resp : HttpResponse J)
    (h2xx : 200 ≤ resp.status ∧ resp.status < 300) :
    ((isJsonMediaType resp.contentType = false ∨ resp.jsonBody = none) →
       generic_http_request true resp = Except.error HttpFailure.valueError) ∧
    generic_http_request false resp = Except.ok (HttpResult.text resp.text) := by
  have hst : ¬ (resp.status < 200 ∨ 300 ≤ resp.status) := by omega
  constructor
  · rintro (h | h)
    · simp [generic_http_request, hst, h]
    · cases hct : isJsonMediaType resp.contentType <;>
        simp [generic_http_request, hst, hct, h]
  · simp [generic_http_request, hst]

/-- Witness for C8: a 200 response declaring `text/html` with an unparseable
body fails the JSON expectation with a value error, while the plain-text
expectation returns the raw body. -/
theorem c8_wrapper_content_type_witness :
    generic_http_request true
        (⟨200, "text/html", "plain response text", none⟩ : HttpResponse Nat) =
      Except.error HttpFailure.valueError ∧
    generic_http_request false
        (⟨200, "text/html", "plain response text", none⟩ : HttpResponse Nat) =
      Except.ok (HttpResult.text "plain response text") :=
  ⟨(c8_wrapper_content_type
      (⟨200, "text/html", "plain response text", none⟩ : HttpResponse Nat)
      ⟨by decide, by decide⟩).1 (Or.inl (by decide)),
   (c8_wrapper_content_type
      (⟨200, "text/html", "plain response text", none⟩ : HttpResponse Nat)
      ⟨by decide, by decide⟩).2⟩

/-- C9: the top-level catch spans the whole run after argument parsing, so a
transport error raised during zone resolution, or during record listing, is
also converted to exit code 3 rather than propagating. -/
theorem c9_catch_spans_whole_run (env : Env) (args : Args) (dryRun : Bool)
    (w : World) (zn dn : String)
    (htok : pyTruthy env.cloudflareApiToken = true)
    (hzn : pyOr args.zone env.ddnsZoneName = some zn)
    (hdn : pyOr args.name env.ddnsDnsName = some dn)
    (hzn1 : zn ≠ "") (hdn1 : dn ≠ "") :
    (w.zonesResp = Except.error NetErr.requestError →
       main env args dryRun w = (3, [Call.getZones zn])) ∧
    (∀ z zs, w.zonesResp = Except.ok ⟨true, z :: zs⟩ → z.id ≠ "" →
       w.recordsResp = Except.error NetErr.requestError →
       main env args dryRun w =
         (3, [Call.getZones zn, Call.getRecords z.id dn "A"])) :=
  ⟨fun hzerr =>
     main_zones_err env args dryRun w zn dn htok hzn hdn hzn1 hdn1 hzerr,
   fun z zs hzones hzid hrerr =>
     main_records_err env args dryRun w zn dn z zs htok hzn hdn hzn1 hdn1
       hzones hzid hrerr⟩

/-- Witness for C9: the zones call raises a transport error and the run exits
with code 3 after that single call. -/
theorem c9_catch_spans_whole_run_witness :
    main exEnv exArgs true exWorldZoneErr = (3, [Call.getZones "example.com"]) :=
  (c9_catch_spans_whole_run exEnv exArgs true exWorldZoneErr "example.com"
    "host.example.com" (by decide) rfl rfl (by decide) (by decide)).1 rfl

/-- C10: a listed record lacking the `content` attribute is always treated as
stale — the optional lookup yields an absent value, never equal to the
fetched IP string — so on a successful run it receives an update call setting
its content to the fetched IP. -/
theorem c10_missing_content_is_stale (env : Env) (args : Args) (dryRun : Bool)
    (w : World) (zn dn : String) (z : Zone) (zs : List Zone)
    (records : List DnsRecord) (ipRaw : String) (r : DnsRecord)
    (htok : pyTruthy env.cloudflareApiToken = true)
    (hzn : pyOr args.zone env.ddnsZoneName = some zn)
    (hdn : pyOr args.name env.ddnsDnsName = some dn)
    (hzn1 : zn ≠ "") (hdn1 : dn ≠ "")
    (hzones : w.zonesResp = Except.ok ⟨true, z :: zs⟩)
    (hzid : z.id ≠ "")
    (hrecs : w.recordsResp = Except.ok ⟨true, records⟩)
    (hne : records ≠ [])
    (hip : w.ipText = Except.ok ipRaw)
    (hpatch : ∀ rid body, ∃ v, w.patchResp rid body = Except.ok v)
    (hmem : r ∈ records) (hnone : r.content = none) :
    Call.updateRecord z.id r.id [("content", pyStrip ipRaw)] ∈
      (main env args dryRun w).2 := by
  rw [main_ok_run env args dryRun w zn dn z zs records ipRaw htok hzn hdn hzn1
    hdn1 hzones hzid hrecs hne hip hpatch]
  exact List.mem_append_right _
    (mem_updTrace_of_no_content dryRun z.id (pyStrip ipRaw) r hnone records hmem)

/-- Witness for C10: a world listing a record with no `content` attribute;
its update call with the fetched IP appears in the trace of the run. -/
theorem c10_missing_content_is_stale_witness :
    Call.updateRecord "fake-zone-id" "rec-456" [("content", "192.0.2.100")] ∈
      (main exEnv exArgs true exWorldNoContent).2 :=
  c10_missing_content_is_stale exEnv exArgs true exWorldNoContent "example.com"
    "host.example.com" exZone [] [exRecord, exRecordNoContent] "192.0.2.100"
    exRecordNoContent (by decide) rfl rfl (by decide) (by decide) rfl
    (by decide) rfl (by decide) rfl (fun rid body => ⟨⟨true, body⟩, rfl⟩)
    (by simp [exRecordNoContent]) rfl

end Ddns
